import Mathlib

/-!
Shallow embedding of the grid-movement / trigger / modal-menu state machine of
the ishetar-game repository (scenes `IshetarScene2`, `TravelScene`,
`NarratorScene`).  Pure state is carried explicitly; the engine's tweened move
animation is modelled by the ordered event trace a `movePlayer` call produces
(the `onComplete` callback of the tween runs after the position has been
committed, so its effects appear after the commit event in the trace).
External collaborators (the Phaser engine, `SaveManager`, map JSON files) are
modelled as parameters: save outcomes and slot previews are inputs, emitted
save / delete calls are outputs.
-/

namespace Ishetar

/-- Facing directions of the player sprite (`playerFacing`). -/
inductive Facing
  | front
  | back
  | left
  | right
deriving DecidableEq, Repr

/-- Ordered side effects of one `movePlayer` call.  `movingSet` records an
assignment to the `isMoving` flag, `positionCommitted` an assignment of the
grid position, `triggersChecked` the single call into trigger evaluation
(`checkTriggers`, respectively `checkSpecialTriggers` / `checkLocationProximity`). -/
inductive MoveEvent
  | facingSet (f : Facing)
  | movingSet (b : Bool)
  | positionCommitted (x y : Int)
  | triggersChecked
deriving DecidableEq, Repr

/-- Value of the `isMoving` flag after replaying a trace on top of the
initial flag value. -/
def movingAfter (init : Bool) : List MoveEvent → Bool
  | [] => init
  | MoveEvent.movingSet b :: rest => movingAfter b rest
  | _ :: rest => movingAfter init rest

/-- Whether an event is a commit of the grid position. -/
def eventIsCommit : MoveEvent → Bool
  | MoveEvent.positionCommitted _ _ => true
  | _ => false

/-- Every trigger evaluation in the trace happens strictly after some position
commit and at a point where the `isMoving` flag (replayed from `init`) is
false. -/
def triggerAfterCommitAndClear (init : Bool) (tr : List MoveEvent) : Prop :=
  ∀ i, tr.get? i = some MoveEvent.triggersChecked →
    (∃ j x y, j < i ∧ tr.get? j = some (MoveEvent.positionCommitted x y)) ∧
    movingAfter init (tr.take i) = false

/-- Terrain lookup `this.terrain[gridY]?.[gridX]`: out-of-range (or negative)
indices yield `undefined`, modelled as `none`. -/
def terrainAt (terrain : List (List Nat)) (gridX gridY : Int) : Option Nat :=
  if gridX < 0 ∨ gridY < 0 then none
  else (terrain.get? gridY.toNat).bind fun row => row.get? gridX.toNat

/-- Facing update at the top of `movePlayer`: `dx > 0` right, `dx < 0` left,
`dy > 0` front, `dy < 0` back, otherwise unchanged. -/
def faceFor (dx dy : Int) (current : Facing) : Facing :=
  if 0 < dx then Facing.right
  else if dx < 0 then Facing.left
  else if 0 < dy then Facing.front
  else if dy < 0 then Facing.back
  else current

/-- Mutable state of `IshetarScene2` relevant to movement, triggers and the
shrine save flow.  NPC sprites are render-only; an NPC is its grid cell here. -/
structure Scene2State where
  playerGridX : Int
  playerGridY : Int
  playerFacing : Facing
  isMoving : Bool
  isInDialogue : Bool
  mapGridWidth : Int
  mapGridHeight : Int
  terrain : List (List Nat)
  npcs : List (Int × Int)
  heroId : String
  gameFlags : String → Bool
  playTime : Nat
  devMode : Bool

/-- `IshetarScene2.isPassable`: in-bounds, terrain value not 2, no NPC on the
target cell. -/
def isPassable (s : Scene2State) (gridX gridY : Int) : Bool :=
  if gridX < 0 ∨ s.mapGridWidth ≤ gridX then false
  else if gridY < 0 ∨ s.mapGridHeight ≤ gridY then false
  else if terrainAt s.terrain gridX gridY = some 2 then false
  else if s.npcs.any fun npc => npc.1 == gridX && npc.2 == gridY then false
  else true

/-- Payload handed to `this.scene.start` on a scene transition.  Hero state,
inventory and chest records are forwarded the same way as `gameFlags`; the
fields kept here are the ones the claims inspect. -/
structure ScenePayload where
  targetScene : String
  heroId : String
  gameFlags : String → Bool
  playTime : Nat
  devMode : Bool

/-- `IshetarScene2.goToTravelMap`: starts `TravelScene`, forwarding the game
state bundle unchanged. -/
def goToTravelMap (s : Scene2State) : ScenePayload :=
  { targetScene := "TravelScene"
    heroId := s.heroId
    gameFlags := s.gameFlags
    playTime := s.playTime
    devMode := s.devMode }

/-- The north gate trigger tiles of `IshetarScene2.checkTriggers`. -/
def northGateTiles : List (Int × Int) := [(13, 2), (14, 2)]

/-- `IshetarScene2.checkTriggers`: if the committed position is on a north
gate tile, transition to the travel map. -/
def checkTriggers (s : Scene2State) : Option ScenePayload :=
  if northGateTiles.any fun tile => tile.1 == s.playerGridX && tile.2 == s.playerGridY
  then some (goToTravelMap s) else none

/-- `IshetarScene2.movePlayer`.  Returns the state after the call (including
the completed tween), the ordered trace of its side effects, and the scene
transition requested by trigger evaluation, if any. -/
def movePlayer (s : Scene2State) (dx dy : Int) :
    Scene2State × List MoveEvent × Option ScenePayload :=
  if s.isMoving || s.isInDialogue then (s, [], none)
  else
    let newGridX := s.playerGridX + dx
    let newGridY := s.playerGridY + dy
    let s1 := { s with playerFacing := faceFor dx dy s.playerFacing }
    if !(isPassable s1 newGridX newGridY) then (s1, [MoveEvent.facingSet s1.playerFacing], none)
    else
      let s2 := { s1 with isMoving := true, playerGridX := newGridX, playerGridY := newGridY }
      let s3 := { s2 with isMoving := false }
      (s3,
       [MoveEvent.facingSet s1.playerFacing, MoveEvent.movingSet true,
        MoveEvent.positionCommitted newGridX newGridY, MoveEvent.movingSet false,
        MoveEvent.triggersChecked],
       checkTriggers s3)

/-- Iterated `movePlayer` over a list of `(dx, dy)` inputs. -/
def applyMoves (s : Scene2State) : List (Int × Int) → Scene2State
  | [] => s
  | (dx, dy) :: rest => applyMoves (movePlayer s dx dy).1 rest

/-- Player position satisfies the scene's passability predicate. -/
def posPassable (s : Scene2State) : Prop :=
  isPassable s s.playerGridX s.playerGridY = true

/-- One write `terrain[y][x] = v` from `IshetarScene2.create`; if row `y`
exists the cell is updated, consistent with the source where the rows written
to always exist in the loaded map. -/
def setTile (t : List (List Nat)) (y x v : Nat) : List (List Nat) :=
  t.set y ((t.getD y []).set x v)

/-- The four terrain writes of `IshetarScene2.create` that unlock the north
gate tiles `(13, 1)`, `(14, 1)`, `(13, 2)`, `(14, 2)`. -/
def scene2ApplyGateUnlocks (t : List (List Nat)) : List (List Nat) :=
  setTile (setTile (setTile (setTile t 1 13 0) 1 14 0) 2 13 0) 2 14 0

/-- Grid cells occupied by NPCs in `IshetarScene2.placeNPCs`: the eleven town
NPCs plus the four party heroes (five heroes minus the player, at the four
listed positions), whose cells do not depend on which hero the player is. -/
def scene2NpcPositions : List (Int × Int) :=
  [(22, 5), (21, 5), (14, 3), (25, 11), (8, 4), (9, 9), (9, 15), (15, 18),
   (22, 15), (12, 15), (20, 3), (17, 10), (19, 10), (17, 12), (19, 12)]

/-- State of `IshetarScene2` right after `create`: start position `(20, 18)`
facing back, no modal session, gate tiles unlocked in a deep copy of the map
terrain, NPCs placed.  `gridW` and `gridH` come from the external map data. -/
def scene2Create (heroId : String) (gameFlags : String → Bool) (playTime : Nat)
    (devMode : Bool) (mapTerrain : List (List Nat)) (gridW gridH : Int) : Scene2State :=
  { playerGridX := 20
    playerGridY := 18
    playerFacing := Facing.back
    isMoving := false
    isInDialogue := false
    mapGridWidth := gridW
    mapGridHeight := gridH
    terrain := scene2ApplyGateUnlocks mapTerrain
    npcs := scene2NpcPositions
    heroId := heroId
    gameFlags := gameFlags
    playTime := playTime
    devMode := devMode }

/-! ## TravelScene -/

/-- Rectangle of grid cells belonging to a travel-map location. -/
structure LocationBounds where
  x1 : Int
  y1 : Int
  x2 : Int
  y2 : Int
deriving DecidableEq, Repr

/-- The `type` tag of a travel-map location. -/
inductive LocationType
  | town
  | battle
  | blocked
  | explore
deriving DecidableEq, Repr

/-- A travel-map location marker (sprite container omitted: render-only). -/
structure LocationMarker where
  id : String
  name : String
  bounds : LocationBounds
  description : List String
  type : LocationType
  battleMap : Option String
  exploreMap : Option String
  targetScene : Option String
deriving DecidableEq, Repr

/-- Story flag keys used by the travel scene's special trigger. -/
def quetziShrineFlag : String := "quetzi_shrine_battle_complete"

/-- Flag set by the hellhound ambush so it cannot re-fire. -/
def hellhoundFlag : String := "hellhound_ambush_triggered"

/-- Flag added to every save written from `IshetarScene2`. -/
def southGateFlag : String := "south_gate_battle_complete"

/-- Functional update of the game flag record. -/
def setFlag (flags : String → Bool) (key : String) (b : Bool) : String → Bool :=
  fun k => if k = key then b else flags k

/-- Mutable state of `TravelScene` relevant to movement and triggers. -/
structure TravelState where
  playerGridX : Int
  playerGridY : Int
  playerFacing : Facing
  isMoving : Bool
  isInDialogue : Bool
  mapGridWidth : Int
  mapGridHeight : Int
  terrain : List (List Nat)
  locations : List LocationMarker
  shownBlockedDialogue : List String
  heroId : String
  gameFlags : String → Bool
  playTime : Nat
  devMode : Bool

/-- Observable effects of a travel-scene step besides the state update. -/
inductive TravelEvent
  | blockedDialogue (id : String)
  | ambushFired
  | locationPrompt (id : String)
deriving DecidableEq, Repr

/-- `TravelScene.isWithinBounds`. -/
def isWithinBounds (gridX gridY : Int) (bounds : LocationBounds) : Bool :=
  decide (bounds.x1 ≤ gridX) && decide (gridX ≤ bounds.x2) &&
  decide (bounds.y1 ≤ gridY) && decide (gridY ≤ bounds.y2)

/-- `TravelScene.getLocationAtPosition`: first declared location whose
bounds contain the cell. -/
def getLocationAtPosition (s : TravelState) (gridX gridY : Int) : Option LocationMarker :=
  s.locations.find? fun loc => isWithinBounds gridX gridY loc.bounds

/-- `TravelScene.isPassable`: bounds and terrain only, no NPCs on the
travel map. -/
def travelIsPassable (s : TravelState) (gridX gridY : Int) : Bool :=
  if gridX < 0 ∨ s.mapGridWidth ≤ gridX then false
  else if gridY < 0 ∨ s.mapGridHeight ≤ gridY then false
  else if terrainAt s.terrain gridX gridY = some 2 then false
  else true

/-- `TravelScene.triggerHellhoundAmbush`: sets the one-shot flag and enters
the warning dialogue (whose completion starts the battle scene). -/
def triggerHellhoundAmbush (s : TravelState) : TravelState :=
  { s with gameFlags := setFlag s.gameFlags hellhoundFlag true
           isInDialogue := true }

/-- `TravelScene.checkSpecialTriggers`: the hellhound ambush fires when the
Quetzi Shrine battle is complete, the ambush has not yet been triggered, and
the committed row is 19.  Returns the updated state and whether it fired. -/
def checkSpecialTriggers (s : TravelState) : TravelState × Bool :=
  if s.gameFlags quetziShrineFlag && !(s.gameFlags hellhoundFlag) &&
     (s.playerGridY == 19) then
    (triggerHellhoundAmbush s, true)
  else (s, false)

/-- Tail of an accepted travel move (from the commit through the tween
`onComplete`): commit the position, run `checkSpecialTriggers`, and only if
it did not fire run `checkLocationProximity`, which prompts for any
non-blocked location containing the new cell. -/
def travelCommitMove (s : TravelState) (newX newY : Int) :
    TravelState × List TravelEvent :=
  let s2 := { s with playerGridX := newX, playerGridY := newY }
  let fired := checkSpecialTriggers s2
  if fired.2 then (fired.1, [TravelEvent.ambushFired])
  else
    match getLocationAtPosition fired.1 fired.1.playerGridX fired.1.playerGridY with
    | some loc =>
      if loc.type == LocationType.blocked then (fired.1, [])
      else ({ fired.1 with isInDialogue := true }, [TravelEvent.locationPrompt loc.id])
    | none => (fired.1, [])

/-- `TravelScene.movePlayer`.  Returns the post-call state, the ordered
`MoveEvent` trace of the move itself, and the travel-specific effects. -/
def travelMovePlayer (s : TravelState) (dx dy : Int) :
    TravelState × List MoveEvent × List TravelEvent :=
  if s.isMoving || s.isInDialogue then (s, [], [])
  else
    let newGridX := s.playerGridX + dx
    let newGridY := s.playerGridY + dy
    let s1 := { s with playerFacing := faceFor dx dy s.playerFacing }
    if !(travelIsPassable s1 newGridX newGridY) then
      (s1, [MoveEvent.facingSet s1.playerFacing], [])
    else
      match getLocationAtPosition s1 newGridX newGridY with
      | some loc =>
        if loc.type == LocationType.blocked then
          if !(s1.shownBlockedDialogue.contains loc.id) then
            ({ s1 with shownBlockedDialogue := loc.id :: s1.shownBlockedDialogue
                       isInDialogue := true },
             [MoveEvent.facingSet s1.playerFacing], [TravelEvent.blockedDialogue loc.id])
          else (s1, [MoveEvent.facingSet s1.playerFacing], [])
        else
          let r := travelCommitMove s1 newGridX newGridY
          (r.1,
           [MoveEvent.facingSet s1.playerFacing, MoveEvent.movingSet true,
            MoveEvent.positionCommitted newGridX newGridY, MoveEvent.movingSet false,
            MoveEvent.triggersChecked],
           r.2)
      | none =>
        let r := travelCommitMove s1 newGridX newGridY
        (r.1,
         [MoveEvent.facingSet s1.playerFacing, MoveEvent.movingSet true,
          MoveEvent.positionCommitted newGridX newGridY, MoveEvent.movingSet false,
          MoveEvent.triggersChecked],
         r.2)

/-- Externally triggered travel-scene steps: a directional move attempt, or
the completion of the currently open dialogue (its `onComplete` clears
`isInDialogue`). -/
inductive TravelAction
  | move (dx dy : Int)
  | dialogueDone

/-- One travel-scene step. -/
def travelStep (s : TravelState) : TravelAction → TravelState × List TravelEvent
  | TravelAction.move dx dy =>
      let r := travelMovePlayer s dx dy
      (r.1, r.2.2)
  | TravelAction.dialogueDone => ({ s with isInDialogue := false }, [])

/-- Final state after a sequence of travel-scene steps. -/
def travelRun (s : TravelState) : List TravelAction → TravelState
  | [] => s
  | a :: rest => travelRun (travelStep s a).1 rest

/-- Concatenated effects of a sequence of travel-scene steps. -/
def travelRunEvents (s : TravelState) : List TravelAction → List TravelEvent
  | [] => []
  | a :: rest => (travelStep s a).2 ++ travelRunEvents (travelStep s a).1 rest

/-! ## Choice menu (shared by the town and travel scenes) -/

/-- Modal choice-menu session: option labels, highlighted index, visibility.
The index is an `Int` because the source clamps with `Math.min(length - 1, _)`. -/
structure ChoiceMenu where
  options : List String
  selectedIndex : Int
  visible : Bool

/-- `showChoiceMenu`: stores the options, resets the highlighted index to 0
and shows the menu. -/
def showChoiceMenu (options : List String) : ChoiceMenu :=
  { options := options, selectedIndex := 0, visible := true }

/-- Directional inputs routed to an open choice menu. -/
inductive MenuInput
  | up
  | down

/-- Choice-menu navigation from `update`: up clamps at 0, down clamps at
`length - 1`. -/
def menuNav (m : ChoiceMenu) : MenuInput → ChoiceMenu
  | MenuInput.up => { m with selectedIndex := max 0 (m.selectedIndex - 1) }
  | MenuInput.down =>
      { m with selectedIndex := min ((m.options.length : Int) - 1) (m.selectedIndex + 1) }

/-- Iterated choice-menu navigation. -/
def menuNavAll (m : ChoiceMenu) : List MenuInput → ChoiceMenu
  | [] => m
  | i :: rest => menuNavAll (menuNav m i) rest

/-- `selectChoiceMenuOption`: the label passed to the callback is
`options[selectedIndex]` read at confirm time (`none` models `undefined`). -/
def selectChoiceMenuOption (m : ChoiceMenu) : Option String :=
  m.options.get? m.selectedIndex.toNat

/-! ## Shrine save flow of IshetarScene2 -/

/-- One row of `SaveManager.getAllSlotPreviews()`. -/
structure SlotPreview where
  slot : Nat
  isEmpty : Bool
  mainHero : Option String
  heroLevels : List Nat
  playTime : Nat
deriving DecidableEq, Repr

/-- What the save-slot selection callback decides to do next. -/
inductive SaveFlowStep
  | idle
  | overwriteConfirm (slot : Nat)
  | saveDirect (slot : Nat)
deriving DecidableEq, Repr

/-- Numeric value of a decimal digit character, `none` otherwise. -/
def digitVal (c : Char) : Option Nat :=
  if c.isDigit then some (c.toNat - 48) else none

/-- Parse a maximal run of leading digits: value, number of digits, rest. -/
def parseDigits : List Char → Nat → Nat → Nat × Nat × List Char
  | [], acc, cnt => (acc, cnt, [])
  | c :: rest, acc, cnt =>
    match digitVal c with
    | some d => parseDigits rest (acc * 10 + d) (cnt + 1)
    | none => (acc, cnt, c :: rest)

/-- The regular-expression match `choice.match(/^Slot (\d+):/)` followed by
`parseInt` in the save-slot selection callback. -/
def parseSlotChoice (choice : String) : Option Nat :=
  match choice.toList with
  | 'S' :: 'l' :: 'o' :: 't' :: ' ' :: rest =>
    let r := parseDigits rest 0 0
    if r.2.1 = 0 then none
    else
      match r.2.2 with
      | ':' :: _ => some r.1
      | _ => none
  | _ => none

/-- Callback of the save-slot choice menu in `showSaveSlotSelection`:
cancel is a no-op, an unparsable label is a no-op, an occupied slot asks for
overwrite confirmation, an empty (or unknown) slot saves directly. -/
def saveSlotSelectionCallback (previews : List SlotPreview) (choice : String) :
    SaveFlowStep :=
  if choice = "Cancel" then SaveFlowStep.idle
  else
    match parseSlotChoice choice with
    | none => SaveFlowStep.idle
    | some n =>
      match previews.find? fun p => p.slot == n with
      | some p =>
        if p.isEmpty = false then SaveFlowStep.overwriteConfirm n
        else SaveFlowStep.saveDirect n
      | none => SaveFlowStep.saveDirect n

/-- The data handed to `SaveManager.save` (timestamp and the forwarded hero /
inventory / chest records omitted; `flags` is the scene's flag record with
`south_gate_battle_complete` forced on). -/
structure SaveData where
  slot : Nat
  mainHero : String
  currentMap : String
  playerPosition : Int × Int
  playTime : Nat
  flags : String → Bool

/-- `IshetarScene2.saveGame`: always calls `SaveManager.save`; on success the
tracked play time absorbs the session seconds; either way a result dialogue
opens.  `success` is the external collaborator's boolean outcome. -/
def saveGame (s : Scene2State) (slot : Nat) (sessionSeconds : Nat) (success : Bool) :
    Scene2State × SaveData :=
  let totalPlayTime := s.playTime + sessionSeconds
  let data : SaveData :=
    { slot := slot
      mainHero := s.heroId
      currentMap := "ishetar_town_post_battle"
      playerPosition := (s.playerGridX, s.playerGridY)
      playTime := totalPlayTime
      flags := setFlag s.gameFlags southGateFlag true }
  if success then
    ({ s with playTime := totalPlayTime, isInDialogue := true }, data)
  else
    ({ s with isInDialogue := true }, data)

/-- Options of the overwrite-confirmation choice menu. -/
def overwriteConfirmOptions : List String := ["Yes", "No"]

/-- Result of `showOverwriteConfirmation`: the scene enters dialogue with the
overwrite prompt, and the completion callback of that prompt opens the
confirmation choice menu (display text elided). -/
structure OverwritePrompt where
  state : Scene2State
  menuOptions : List String

/-- `IshetarScene2.showOverwriteConfirmation`. -/
def showOverwriteConfirmation (s : Scene2State) : OverwritePrompt :=
  { state := { s with isInDialogue := true }
    menuOptions := overwriteConfirmOptions }

/-- Selecting an option in the overwrite-confirmation menu:
`selectChoiceMenuOption` first hides the menu (clearing `isInDialogue`), then
the callback saves exactly when the choice is `Yes`.  The second component
lists the `SaveManager.save` calls made. -/
def overwriteMenuSelect (s : Scene2State) (slot sessionSeconds : Nat) (success : Bool)
    (choice : String) : Scene2State × List SaveData :=
  let s1 := { s with isInDialogue := false }
  if choice = "Yes" then
    let r := saveGame s1 slot sessionSeconds success
    (r.1, [r.2])
  else (s1, [])

/-- Effect of a list of `SaveManager.save` calls on the persisted slot store. -/
def applySaveCalls (store : Nat → Option SaveData) :
    List SaveData → (Nat → Option SaveData)
  | [] => store
  | d :: rest => applySaveCalls (fun k => if k = d.slot then some d else store k) rest

/-! ## NarratorScene save-slot deletion -/

/-- Phases of `NarratorScene` used by the save-slot flow. -/
inductive NarratorPhase
  | modeSelect
  | saveSelect
  | deleteConfirm
deriving DecidableEq, Repr

/-- Mutable state of `NarratorScene` relevant to save-slot deletion.
`deleteConfirmTexts` holds the labels of the two on-screen texts in the order
they are pushed: the `No` text first, then the `Yes` text. -/
structure NarratorState where
  currentPhase : NarratorPhase
  saveSlotPreviews : List SlotPreview
  saveSlotSelection : Nat
  deleteConfirmSelection : Nat
  slotToDelete : Nat
  deleteConfirmTexts : List String

/-- `NarratorScene.showDeleteConfirmation`: no-op on an empty slot, otherwise
enters the `delete_confirm` phase with the selection defaulted to index 1 and
the texts `No` (index 0) and `Yes` (index 1) shown. -/
def showDeleteConfirmation (s : NarratorState) : NarratorState :=
  match s.saveSlotPreviews.get? s.saveSlotSelection with
  | none => s
  | some preview =>
    if preview.isEmpty then s
    else
      { s with slotToDelete := preview.slot
               currentPhase := NarratorPhase.deleteConfirm
               deleteConfirmSelection := 1
               deleteConfirmTexts := ["No", "Yes"] }

/-- `NarratorScene.confirmDelete`: calls `SaveManager.delete(slotToDelete)`
exactly when the selection is 1, then clears the confirmation texts.  The
second component lists the delete calls made. -/
def confirmDelete (s : NarratorState) : NarratorState × List Nat :=
  let calls := if s.deleteConfirmSelection = 1 then [s.slotToDelete] else []
  ({ s with deleteConfirmTexts := [] }, calls)

/-- Keys handled by `update` in the `delete_confirm` phase. -/
inductive NavKey
  | leftKey
  | rightKey
  | enterKey

/-- `NarratorScene.update` in the `delete_confirm` phase: left selects 0,
right selects 1, enter confirms. -/
def deleteConfirmStep (s : NarratorState) : NavKey → NarratorState × List Nat
  | NavKey.leftKey => ({ s with deleteConfirmSelection := 0 }, [])
  | NavKey.rightKey => ({ s with deleteConfirmSelection := 1 }, [])
  | NavKey.enterKey => confirmDelete s

/-! ## Concrete fixtures for evaluating the definitions -/

/-- A small town-scene state: 3x3 map, a wall at `(1, 2)`, an NPC at `(2, 1)`,
player at `(1, 1)`. -/
def cScene2 : Scene2State :=
  { playerGridX := 1
    playerGridY := 1
    playerFacing := Facing.front
    isMoving := false
    isInDialogue := false
    mapGridWidth := 3
    mapGridHeight := 3
    terrain := [[0, 0, 0], [0, 0, 0], [0, 2, 0]]
    npcs := [(2, 1)]
    heroId := "vicas"
    gameFlags := fun _ => false
    playTime := 0
    devMode := false }

/-- An all-walkable 32x32 terrain standing in for the external map file. -/
def cMapTerrain : List (List Nat) := List.replicate 32 (List.replicate 32 0)

/-- A town location covering the cells `(4..6, 4..6)` of the travel map. -/
def cTownLoc : LocationMarker :=
  { id := "ishetar_town"
    name := "Ishetar"
    bounds := { x1 := 4, y1 := 4, x2 := 6, y2 := 6 }
    description := []
    type := LocationType.town
    battleMap := none
    exploreMap := none
    targetScene := some ("IshetarScene2") }

/-- A blocked location whose single cell `(5, 5)` also lies inside
`cTownLoc`, which is declared before it. -/
def cBlockedOverlapLoc : LocationMarker :=
  { id := "red_vale"
    name := "Red Vale"
    bounds := { x1 := 5, y1 := 5, x2 := 5, y2 := 5 }
    description := []
    type := LocationType.blocked
    battleMap := none
    exploreMap := none
    targetScene := none }

/-- A blocked location at `(2, 2)` not covered by any earlier location. -/
def cBlockedLoc : LocationMarker :=
  { id := "red_vale_south"
    name := "Red Vale South"
    bounds := { x1 := 2, y1 := 2, x2 := 2, y2 := 2 }
    description := []
    type := LocationType.blocked
    battleMap := none
    exploreMap := none
    targetScene := none }

/-- A travel-scene state on an all-walkable 10x10 map with a town location
declared before an overlapping blocked location; player at `(5, 4)`. -/
def cTravelOverlap : TravelState :=
  { playerGridX := 5
    playerGridY := 4
    playerFacing := Facing.front
    isMoving := false
    isInDialogue := false
    mapGridWidth := 10
    mapGridHeight := 10
    terrain := List.replicate 10 (List.replicate 10 0)
    locations := [cTownLoc, cBlockedOverlapLoc]
    shownBlockedDialogue := []
    heroId := "vicas"
    gameFlags := fun _ => false
    playTime := 0
    devMode := false }

/-- A travel-scene state with a single blocked location; player at `(2, 1)`,
one row above it, with the Quetzi Shrine flag set and row 19 out of the map
so only flag logic matters. -/
def cTravel : TravelState :=
  { playerGridX := 2
    playerGridY := 1
    playerFacing := Facing.front
    isMoving := false
    isInDialogue := false
    mapGridWidth := 10
    mapGridHeight := 10
    terrain := List.replicate 10 (List.replicate 10 0)
    locations := [cBlockedLoc]
    shownBlockedDialogue := []
    heroId := "vicas"
    gameFlags := setFlag (fun _ => false) quetziShrineFlag true
    playTime := 0
    devMode := false }

/-- A travel-scene state sitting on row 18 of a 24x24 all-walkable map with
the Quetzi Shrine battle complete and the ambush not yet triggered. -/
def cTravelRow18 : TravelState :=
  { playerGridX := 3
    playerGridY := 18
    playerFacing := Facing.front
    isMoving := false
    isInDialogue := false
    mapGridWidth := 24
    mapGridHeight := 24
    terrain := List.replicate 24 (List.replicate 24 0)
    locations := []
    shownBlockedDialogue := []
    heroId := "vicas"
    gameFlags := setFlag (fun _ => false) quetziShrineFlag true
    playTime := 0
    devMode := false }

/-- The state of `cTravelRow18` after the hellhound ambush has fired. -/
def cAmbushDone : TravelState :=
  { cTravelRow18 with gameFlags := setFlag cTravelRow18.gameFlags hellhoundFlag true }

/-- An occupied save slot 1. -/
def cSlot1 : SlotPreview :=
  { slot := 1, isEmpty := false, mainHero := some ("vicas"), heroLevels := [2],
    playTime := 300 }

/-- An empty save slot 2. -/
def cSlot2 : SlotPreview :=
  { slot := 2, isEmpty := true, mainHero := none, heroLevels := [], playTime := 0 }

/-- Slot previews with an occupied slot 1 and an empty slot 2. -/
def cPreviews : List SlotPreview := [cSlot1, cSlot2]

/-- The choice-menu label of the occupied slot 1. -/
def cSlotChoice : String := "Slot 1: Vicas Lv2 5m"

/-- A narrator-scene state in the save-select phase with slot 1 occupied and
currently highlighted. -/
def cNarrator : NarratorState :=
  { currentPhase := NarratorPhase.saveSelect
    saveSlotPreviews := cPreviews
    saveSlotSelection := 0
    deleteConfirmSelection := 0
    slotToDelete := 0
    deleteConfirmTexts := [] }

/-! ## Theorems -/

theorem isPassable_eq_true_iff (s : Scene2State) (x y : Int) :
    isPassable s x y = true ↔
      0 ≤ x ∧ x < s.mapGridWidth ∧ 0 ≤ y ∧ y < s.mapGridHeight ∧
      terrainAt s.terrain x y ≠ some 2 ∧
      ∀ npc ∈ s.npcs, ¬(npc.1 = x ∧ npc.2 = y) := by
  unfold isPassable
  split_ifs with h1 h2 h3 h4
  · simp only [Bool.false_eq_true, false_iff]
    rintro ⟨hx0, hxw, -⟩
    omega
  · simp only [Bool.false_eq_true, false_iff]
    rintro ⟨-, -, hy0, hyh, -⟩
    omega
  · simp only [Bool.false_eq_true, false_iff]
    rintro ⟨-, -, -, -, ht, -⟩
    exact ht h3
  · simp only [Bool.false_eq_true, false_iff]
    rintro ⟨-, -, -, -, -, hn⟩
    simp only [List.any_eq_true, Bool.and_eq_true, beq_iff_eq] at h4
    obtain ⟨npc, hm, he1, he2⟩ := h4
    exact hn npc hm ⟨he1, he2⟩
  · simp only [true_iff]
    simp only [List.any_eq_true, Bool.and_eq_true, beq_iff_eq] at h4
    push_neg at h1 h2 h4
    refine ⟨h1.1, h1.2, h2.1, h2.2, h3, ?_⟩
    intro npc hm ⟨he1, he2⟩
    exact absurd he2 (h4 npc hm he1)

theorem movePlayer_preserves_posPassable (s : Scene2State) (dx dy : Int)
    (h : posPassable s) : posPassable (movePlayer s dx dy).1 := by
  unfold movePlayer
  split
  · exact h
  · dsimp only
    split
    · exact h
    · next hp =>
      simp only [Bool.not_eq_true', Bool.not_eq_false] at hp
      exact hp

theorem applyMoves_preserves_posPassable (moves : List (Int × Int)) (s : Scene2State)
    (h : posPassable s) : posPassable (applyMoves s moves) := by
  induction moves generalizing s with
  | nil => exact h
  | cons mv rest ih =>
    obtain ⟨dx, dy⟩ := mv
    exact ih _ (movePlayer_preserves_posPassable s dx dy h)

/-- C1: starting from a state whose player position satisfies the passability
predicate, no sequence of movePlayer calls can leave the player resting on an
impassable tile (terrain value 2) or an NPC-occupied tile. -/
theorem player_never_rests_on_impassable (s : Scene2State) (moves : List (Int × Int))
    (h : posPassable s) :
    posPassable (applyMoves s moves) ∧
    terrainAt (applyMoves s moves).terrain (applyMoves s moves).playerGridX
      (applyMoves s moves).playerGridY ≠ some 2 ∧
    ∀ npc ∈ (applyMoves s moves).npcs,
      ¬(npc.1 = (applyMoves s moves).playerGridX ∧
        npc.2 = (applyMoves s moves).playerGridY) := by
  have hp := applyMoves_preserves_posPassable moves s h
  have hiff := (isPassable_eq_true_iff (applyMoves s moves)
    (applyMoves s moves).playerGridX (applyMoves s moves).playerGridY).1 hp
  exact ⟨hp, hiff.2.2.2.2.1, hiff.2.2.2.2.2⟩

/-- Witness for C1: a concrete passable start and a concrete move sequence. -/
theorem player_never_rests_on_impassable_witness :
    posPassable cScene2 ∧
    (posPassable (applyMoves cScene2 [(0, 1), (1, 0), (0, -1)]) ∧
     terrainAt (applyMoves cScene2 [(0, 1), (1, 0), (0, -1)]).terrain
       (applyMoves cScene2 [(0, 1), (1, 0), (0, -1)]).playerGridX
       (applyMoves cScene2 [(0, 1), (1, 0), (0, -1)]).playerGridY ≠ some 2 ∧
     ∀ npc ∈ (applyMoves cScene2 [(0, 1), (1, 0), (0, -1)]).npcs,
       ¬(npc.1 = (applyMoves cScene2 [(0, 1), (1, 0), (0, -1)]).playerGridX ∧
         npc.2 = (applyMoves cScene2 [(0, 1), (1, 0), (0, -1)]).playerGridY)) :=
  ⟨by unfold posPassable; decide,
   player_never_rests_on_impassable cScene2 [(0, 1), (1, 0), (0, -1)]
     (by unfold posPassable; decide)⟩

theorem triggerACC_nil (init : Bool) : triggerAfterCommitAndClear init [] := by
  intro i h
  simp at h

theorem triggerACC_facingOnly (init : Bool) (f : Facing) :
    triggerAfterCommitAndClear init [MoveEvent.facingSet f] := by
  intro i h
  match i with
  | 0 => simp at h
  | n + 1 => simp at h

theorem triggerACC_accepted (init : Bool) (f : Facing) (x y : Int) :
    triggerAfterCommitAndClear init
      [MoveEvent.facingSet f, MoveEvent.movingSet true,
       MoveEvent.positionCommitted x y, MoveEvent.movingSet false,
       MoveEvent.triggersChecked] := by
  intro i h
  match i with
  | 0 => simp at h
  | 1 => simp at h
  | 2 => simp at h
  | 3 => simp at h
  | 4 =>
    refine ⟨⟨2, x, y, by omega, rfl⟩, ?_⟩
    simp [List.take, movingAfter]
  | n + 5 => simp at h

theorem count_accepted_trace (f : Facing) (x y : Int) :
    ([MoveEvent.facingSet f, MoveEvent.movingSet true,
      MoveEvent.positionCommitted x y, MoveEvent.movingSet false,
      MoveEvent.triggersChecked] : List MoveEvent).count MoveEvent.triggersChecked = 1 ∧
    ([MoveEvent.facingSet f, MoveEvent.movingSet true,
      MoveEvent.positionCommitted x y, MoveEvent.movingSet false,
      MoveEvent.triggersChecked] : List MoveEvent).countP eventIsCommit = 1 := by
  constructor
  · simp [List.count_cons]
  · simp [List.countP_cons, eventIsCommit]

theorem count_facing_trace (f : Facing) :
    ([MoveEvent.facingSet f] : List MoveEvent).count MoveEvent.triggersChecked = 0 ∧
    ([MoveEvent.facingSet f] : List MoveEvent).countP eventIsCommit = 0 := by
  constructor
  · simp [List.count_cons]
  · simp [List.countP_cons, eventIsCommit]

/-- C2: for both town and travel variants of movePlayer, trigger evaluation
appears in the effect trace exactly as often as a position commit (hence
exactly once per accepted move and never otherwise), and every trigger
evaluation comes strictly after a position commit, at a point where the
isMoving flag has been cleared. -/
theorem trigger_eval_once_after_commit (s : Scene2State) (t : TravelState)
    (dx dy du dv : Int) :
    ((movePlayer s dx dy).2.1.count MoveEvent.triggersChecked =
       (movePlayer s dx dy).2.1.countP eventIsCommit ∧
     (movePlayer s dx dy).2.1.count MoveEvent.triggersChecked ≤ 1 ∧
     triggerAfterCommitAndClear s.isMoving (movePlayer s dx dy).2.1) ∧
    ((travelMovePlayer t du dv).2.1.count MoveEvent.triggersChecked =
       (travelMovePlayer t du dv).2.1.countP eventIsCommit ∧
     (travelMovePlayer t du dv).2.1.count MoveEvent.triggersChecked ≤ 1 ∧
     triggerAfterCommitAndClear t.isMoving (travelMovePlayer t du dv).2.1) := by
  constructor
  · unfold movePlayer
    split
    · exact ⟨rfl, by simp, triggerACC_nil _⟩
    · dsimp only
      split
      · exact ⟨by simp [(count_facing_trace _).1, (count_facing_trace _).2], by
          simp [(count_facing_trace _).1], triggerACC_facingOnly _ _⟩
      · exact ⟨by simp [(count_accepted_trace _ _ _).1, (count_accepted_trace _ _ _).2], by
          simp [(count_accepted_trace _ _ _).1], triggerACC_accepted _ _ _ _⟩
  · unfold travelMovePlayer
    split
    · exact ⟨rfl, by simp, triggerACC_nil _⟩
    · dsimp only
      split
      · exact ⟨by simp [(count_facing_trace _).1, (count_facing_trace _).2], by
          simp [(count_facing_trace _).1], triggerACC_facingOnly _ _⟩
      · split
        · split
          · split
            · exact ⟨by simp [(count_facing_trace _).1, (count_facing_trace _).2], by
                simp [(count_facing_trace _).1], triggerACC_facingOnly _ _⟩
            · exact ⟨by simp [(count_facing_trace _).1, (count_facing_trace _).2], by
                simp [(count_facing_trace _).1], triggerACC_facingOnly _ _⟩
          · exact ⟨by simp [(count_accepted_trace _ _ _).1, (count_accepted_trace _ _ _).2], by
              simp [(count_accepted_trace _ _ _).1], triggerACC_accepted _ _ _ _⟩
        · exact ⟨by simp [(count_accepted_trace _ _ _).1, (count_accepted_trace _ _ _).2], by
            simp [(count_accepted_trace _ _ _).1], triggerACC_accepted _ _ _ _⟩

theorem isPassable_eq_false_iff (s : Scene2State) (x y : Int) :
    isPassable s x y = false ↔
      x < 0 ∨ s.mapGridWidth ≤ x ∨ y < 0 ∨ s.mapGridHeight ≤ y ∨
      terrainAt s.terrain x y = some 2 ∨
      ∃ npc ∈ s.npcs, npc.1 = x ∧ npc.2 = y := by
  constructor
  · intro h
    by_contra hc
    push_neg at hc
    obtain ⟨h1, h2, h3, h4, h5, h6⟩ := hc
    have h6a : ∀ npc ∈ s.npcs, ¬(npc.1 = x ∧ npc.2 = y) := by
      intro npc hmem he
      exact h6 npc hmem he.1 he.2
    have htrue : isPassable s x y = true :=
      (isPassable_eq_true_iff s x y).2 ⟨by omega, by omega, by omega, by omega, h5, h6a⟩
    rw [h] at htrue
    exact Bool.false_ne_true htrue
  · intro hdisj
    by_contra hc
    rw [Bool.not_eq_false] at hc
    obtain ⟨h1, h2, h3, h4, h5, h6⟩ := (isPassable_eq_true_iff s x y).1 hc
    rcases hdisj with h | h | h | h | h | ⟨npc, hmem, he⟩
    · omega
    · omega
    · omega
    · omega
    · exact h5 h
    · exact h6 npc hmem he

/-- C3: with no animation or modal session active, a unit-vector move is
rejected (grid position unchanged, no tween started) exactly when the target
tile is out of bounds, has terrain value 2, or is NPC-occupied; in
particular an in-bounds, NPC-free tile of terrain value 1 is accepted. -/
theorem move_reject_characterization (s : Scene2State) (dx dy : Int)
    (hm : s.isMoving = false) (hd : s.isInDialogue = false)
    (hu : (dx = 1 ∧ dy = 0) ∨ (dx = -1 ∧ dy = 0) ∨ (dx = 0 ∧ dy = 1) ∨
          (dx = 0 ∧ dy = -1)) :
    (((movePlayer s dx dy).1.playerGridX = s.playerGridX ∧
      (movePlayer s dx dy).1.playerGridY = s.playerGridY)
     ↔ (s.playerGridX + dx < 0 ∨ s.mapGridWidth ≤ s.playerGridX + dx ∨
        s.playerGridY + dy < 0 ∨ s.mapGridHeight ≤ s.playerGridY + dy ∨
        terrainAt s.terrain (s.playerGridX + dx) (s.playerGridY + dy) = some 2 ∨
        ∃ npc ∈ s.npcs, npc.1 = s.playerGridX + dx ∧ npc.2 = s.playerGridY + dy)) ∧
    ((s.playerGridX + dx < 0 ∨ s.mapGridWidth ≤ s.playerGridX + dx ∨
      s.playerGridY + dy < 0 ∨ s.mapGridHeight ≤ s.playerGridY + dy ∨
      terrainAt s.terrain (s.playerGridX + dx) (s.playerGridY + dy) = some 2 ∨
      ∃ npc ∈ s.npcs, npc.1 = s.playerGridX + dx ∧ npc.2 = s.playerGridY + dy) →
     (movePlayer s dx dy).2.1.count (MoveEvent.movingSet true) = 0) ∧
    (terrainAt s.terrain (s.playerGridX + dx) (s.playerGridY + dy) = some 1 →
     0 ≤ s.playerGridX + dx → s.playerGridX + dx < s.mapGridWidth →
     0 ≤ s.playerGridY + dy → s.playerGridY + dy < s.mapGridHeight →
     (∀ npc ∈ s.npcs, ¬(npc.1 = s.playerGridX + dx ∧ npc.2 = s.playerGridY + dy)) →
     (movePlayer s dx dy).1.playerGridX = s.playerGridX + dx ∧
     (movePlayer s dx dy).1.playerGridY = s.playerGridY + dy) := by
  have hfalse := isPassable_eq_false_iff s (s.playerGridX + dx) (s.playerGridY + dy)
  unfold movePlayer
  split
  · next hg => rw [hm, hd] at hg; simp at hg
  · dsimp only
    split
    · next hp =>
      rw [Bool.not_eq_true'] at hp
      refine ⟨⟨fun _ => hfalse.1 hp, fun _ => ⟨rfl, rfl⟩⟩, fun _ => by
        simp [List.count_cons], fun ht h1 h2 h3 h4 h5 => ?_⟩
      exfalso
      have htrue : isPassable s (s.playerGridX + dx) (s.playerGridY + dy) = true :=
        (isPassable_eq_true_iff s (s.playerGridX + dx) (s.playerGridY + dy)).2
          ⟨h1, h2, h3, h4, by rw [ht]; simp, h5⟩
      have hp2 : isPassable s (s.playerGridX + dx) (s.playerGridY + dy) = false := hp
      rw [htrue] at hp2
      exact Bool.noConfusion hp2
    · next hp =>
      rw [Bool.not_eq_true, Bool.not_eq_false'] at hp
      have hp2 : isPassable s (s.playerGridX + dx) (s.playerGridY + dy) = true := hp
      refine ⟨⟨fun he => ?_, fun hr => ?_⟩, fun hr => ?_, fun _ _ _ _ _ _ => ⟨rfl, rfl⟩⟩
      · exfalso
        obtain ⟨he1, he2⟩ := he
        dsimp only at he1 he2
        rcases hu with ⟨h1, h2⟩ | ⟨h1, h2⟩ | ⟨h1, h2⟩ | ⟨h1, h2⟩ <;> subst h1 <;> subst h2 <;>
          omega
      · exfalso
        have hx := hfalse.2 hr
        rw [hp2] at hx
        exact Bool.noConfusion hx
      · exfalso
        have hx := hfalse.2 hr
        rw [hp2] at hx
        exact Bool.noConfusion hx

/-- C4: when an animation or modal session is active, movePlayer is a
complete no-op; otherwise the facing direction follows the sign of dx then
dy even when the move is rejected. -/
theorem facing_update_and_modal_noop (s : Scene2State) (dx dy : Int) :
    ((s.isMoving = true ∨ s.isInDialogue = true) →
      movePlayer s dx dy = (s, [], none)) ∧
    (s.isMoving = false → s.isInDialogue = false →
      ((dx = 1 → (movePlayer s dx dy).1.playerFacing = Facing.right) ∧
       (dx = -1 → (movePlayer s dx dy).1.playerFacing = Facing.left) ∧
       (dx = 0 → dy = 1 → (movePlayer s dx dy).1.playerFacing = Facing.front) ∧
       (dx = 0 → dy = -1 → (movePlayer s dx dy).1.playerFacing = Facing.back))) := by
  constructor
  · intro hor
    unfold movePlayer
    split
    · rfl
    · next hg =>
      exfalso
      rcases hor with h | h <;> simp [h] at hg
  · intro hm hd
    unfold movePlayer
    split
    · next hg => rw [hm, hd] at hg; simp at hg
    · dsimp only
      split <;>
        refine ⟨fun h1 => ?_, fun h1 => ?_, fun h1 h2 => ?_, fun h1 h2 => ?_⟩ <;>
        subst_vars <;> norm_num [faceFor]

theorem checkSpecialTriggers_not_fired (s : TravelState)
    (h : s.gameFlags hellhoundFlag = true) :
    checkSpecialTriggers s = (s, false) := by
  unfold checkSpecialTriggers
  split
  · next hc => rw [h] at hc; simp at hc
  · rfl

theorem checkSpecialTriggers_shown (s : TravelState) :
    (checkSpecialTriggers s).1.shownBlockedDialogue = s.shownBlockedDialogue := by
  unfold checkSpecialTriggers
  split
  · rfl
  · rfl

theorem travelCommitMove_hellhound (s : TravelState) (nx ny : Int)
    (h : s.gameFlags hellhoundFlag = true) :
    (travelCommitMove s nx ny).1.gameFlags hellhoundFlag = true ∧
    (travelCommitMove s nx ny).2.count TravelEvent.ambushFired = 0 := by
  unfold travelCommitMove
  dsimp only
  rw [checkSpecialTriggers_not_fired { s with playerGridX := nx, playerGridY := ny } h]
  dsimp only
  split
  · next hf => simp at hf
  · split
    · split
      · exact ⟨h, rfl⟩
      · exact ⟨h, by simp [List.count_cons]⟩
    · exact ⟨h, rfl⟩

theorem travelStep_hellhound (s : TravelState) (a : TravelAction)
    (h : s.gameFlags hellhoundFlag = true) :
    (travelStep s a).1.gameFlags hellhoundFlag = true ∧
    (travelStep s a).2.count TravelEvent.ambushFired = 0 := by
  cases a with
  | dialogueDone => exact ⟨h, rfl⟩
  | move dx dy =>
    dsimp only [travelStep]
    unfold travelMovePlayer
    split
    · exact ⟨h, rfl⟩
    · dsimp only
      split
      · exact ⟨h, rfl⟩
      · split
        · split
          · split
            · exact ⟨h, rfl⟩
            · exact ⟨h, rfl⟩
          · exact travelCommitMove_hellhound _ _ _ h
        · exact travelCommitMove_hellhound _ _ _ h

theorem travelRun_hellhound (acts : List TravelAction) (s : TravelState)
    (h : s.gameFlags hellhoundFlag = true) :
    (travelRun s acts).gameFlags hellhoundFlag = true ∧
    (travelRunEvents s acts).count TravelEvent.ambushFired = 0 := by
  induction acts generalizing s with
  | nil => exact ⟨h, rfl⟩
  | cons a rest ih =>
    obtain ⟨h1, h2⟩ := travelStep_hellhound s a h
    obtain ⟨h3, h4⟩ := ih (travelStep s a).1 h1
    refine ⟨h3, ?_⟩
    dsimp only [travelRunEvents]
    rw [List.count_append, h2, h4]

/-- C5: the hellhound ambush fires exactly under the stated flag and row
conditions, firing sets the one-shot flag, and once the flag is set no
sequence of travel-scene steps can make it fire again. -/
theorem hellhound_ambush_at_most_once (s : TravelState) (acts : List TravelAction) :
    ((checkSpecialTriggers s).2 = true ↔
      (s.gameFlags quetziShrineFlag = true ∧ s.gameFlags hellhoundFlag = false ∧
       s.playerGridY = 19)) ∧
    ((checkSpecialTriggers s).2 = true →
      (checkSpecialTriggers s).1.gameFlags hellhoundFlag = true) ∧
    (s.gameFlags hellhoundFlag = true →
      (travelRun s acts).gameFlags hellhoundFlag = true ∧
      (travelRunEvents s acts).count TravelEvent.ambushFired = 0) := by
  refine ⟨?_, ?_, fun h => travelRun_hellhound acts s h⟩
  · unfold checkSpecialTriggers
    split
    · next hc =>
      simp only [Bool.and_eq_true, Bool.not_eq_true', beq_iff_eq] at hc
      exact ⟨fun _ => ⟨hc.1.1, hc.1.2, hc.2⟩, fun _ => rfl⟩
    · next hc =>
      simp only [Bool.and_eq_true, Bool.not_eq_true', beq_iff_eq] at hc
      constructor
      · intro hf
        exact Bool.noConfusion hf
      · intro h3
        exact absurd ⟨⟨h3.1, h3.2.1⟩, h3.2.2⟩ hc
  · unfold checkSpecialTriggers
    split
    · intro _
      simp [triggerHellhoundAmbush, setFlag]
    · intro hf
      exact Bool.noConfusion hf

/-- Witness for C5: after the ambush flag is set, a concrete committed move
onto row 19 neither fires the ambush nor clears the flag. -/
theorem hellhound_ambush_at_most_once_witness :
    cAmbushDone.gameFlags hellhoundFlag = true ∧
    ((travelRun cAmbushDone [TravelAction.move 0 1]).gameFlags hellhoundFlag = true ∧
     (travelRunEvents cAmbushDone [TravelAction.move 0 1]).count
       TravelEvent.ambushFired = 0) :=
  ⟨by decide,
   (hellhound_ambush_at_most_once cAmbushDone [TravelAction.move 0 1]).2.2 (by decide)⟩

theorem contains_cons_self (l : List String) (a : String) :
    (a :: l).contains a = true := by
  rw [List.contains_cons]
  simp

theorem contains_cons_of (l : List String) (a x : String) (h : l.contains x = true) :
    (a :: l).contains x = true := by
  rw [List.contains_cons, h]
  simp

theorem travelCommitMove_blockedDialogue (s : TravelState) (nx ny : Int) (lid : String) :
    (travelCommitMove s nx ny).2.count (TravelEvent.blockedDialogue lid) = 0 ∧
    (travelCommitMove s nx ny).1.shownBlockedDialogue = s.shownBlockedDialogue := by
  unfold travelCommitMove
  dsimp only
  split
  · exact ⟨by simp, checkSpecialTriggers_shown _⟩
  · split
    · split
      · exact ⟨rfl, checkSpecialTriggers_shown _⟩
      · exact ⟨by simp, checkSpecialTriggers_shown _⟩
    · exact ⟨rfl, checkSpecialTriggers_shown _⟩

theorem travelStep_blockedDialogue (s : TravelState) (a : TravelAction) (lid : String) :
    (travelStep s a).2.count (TravelEvent.blockedDialogue lid) ≤ 1 ∧
    (s.shownBlockedDialogue.contains lid = true →
      (travelStep s a).2.count (TravelEvent.blockedDialogue lid) = 0 ∧
      (travelStep s a).1.shownBlockedDialogue.contains lid = true) ∧
    (1 ≤ (travelStep s a).2.count (TravelEvent.blockedDialogue lid) →
      (travelStep s a).1.shownBlockedDialogue.contains lid = true) := by
  cases a with
  | dialogueDone =>
    exact ⟨Nat.zero_le 1, fun h => ⟨rfl, h⟩, fun h => absurd h (Nat.not_succ_le_zero 0)⟩
  | move dx dy =>
    dsimp only [travelStep]
    unfold travelMovePlayer
    split
    · exact ⟨Nat.zero_le 1, fun h => ⟨rfl, h⟩, fun h => absurd h (Nat.not_succ_le_zero 0)⟩
    · dsimp only
      split
      · exact ⟨Nat.zero_le 1, fun h => ⟨rfl, h⟩, fun h => absurd h (Nat.not_succ_le_zero 0)⟩
      · split
        · next loc heq =>
          split
          · split
            · next hns =>
              rw [Bool.not_eq_true'] at hns
              refine ⟨?_, ?_, ?_⟩
              · simp [List.count_singleton']
                split <;> omega
              · intro hcont
                by_cases hid : lid = loc.id
                · rw [hid] at hcont
                  rw [hcont] at hns
                  exact Bool.noConfusion hns
                · refine ⟨by simp [List.count_singleton', Ne.symm hid], ?_⟩
                  exact contains_cons_of _ _ _ hcont
              · intro hge
                by_cases hid : lid = loc.id
                · rw [hid]
                  exact contains_cons_self _ _
                · rw [show ([TravelEvent.blockedDialogue loc.id] : List TravelEvent).count
                      (TravelEvent.blockedDialogue lid) = 0 by
                      simp [List.count_singleton', Ne.symm hid]] at hge
                  omega
            · exact ⟨Nat.zero_le 1, fun h => ⟨rfl, h⟩,
                fun h => absurd h (Nat.not_succ_le_zero 0)⟩
          · obtain ⟨hc, hs⟩ := travelCommitMove_blockedDialogue
              { s with playerFacing := faceFor dx dy s.playerFacing }
              (s.playerGridX + dx) (s.playerGridY + dy) lid
            exact ⟨by rw [hc]; exact Nat.zero_le 1, fun h => ⟨hc, by rw [hs]; exact h⟩,
              fun h => by rw [hc] at h; omega⟩
        · obtain ⟨hc, hs⟩ := travelCommitMove_blockedDialogue
            { s with playerFacing := faceFor dx dy s.playerFacing }
            (s.playerGridX + dx) (s.playerGridY + dy) lid
          exact ⟨by rw [hc]; exact Nat.zero_le 1, fun h => ⟨hc, by rw [hs]; exact h⟩,
            fun h => by rw [hc] at h; omega⟩

theorem travelRun_blockedDialogue (acts : List TravelAction) (s : TravelState)
    (lid : String) :
    (s.shownBlockedDialogue.contains lid = true →
      (travelRunEvents s acts).count (TravelEvent.blockedDialogue lid) = 0) ∧
    (travelRunEvents s acts).count (TravelEvent.blockedDialogue lid) ≤ 1 := by
  induction acts generalizing s with
  | nil => exact ⟨fun _ => rfl, Nat.zero_le 1⟩
  | cons a rest ih =>
    obtain ⟨hle, hcont, hfirst⟩ := travelStep_blockedDialogue s a lid
    dsimp only [travelRunEvents]
    rw [List.count_append]
    constructor
    · intro h
      obtain ⟨hc0, hcafter⟩ := hcont h
      rw [hc0, (ih (travelStep s a).1).1 hcafter]
    · by_cases hstep : 1 ≤ (travelStep s a).2.count (TravelEvent.blockedDialogue lid)
      · have hrest := (ih (travelStep s a).1).1 (hfirst hstep)
        omega
      · have hrest := (ih (travelStep s a).1).2
        omega

/-- C9 counterexample: with a town location declared before an overlapping
blocked location, moving onto the tile (5, 5) — which lies inside the blocked
location's bounds — does change the player's position, because
getLocationAtPosition returns the first match and it is not blocked. -/
theorem blocked_overlap_counterexample :
    cBlockedOverlapLoc.type = LocationType.blocked ∧
    isWithinBounds (cTravelOverlap.playerGridX + 0) (cTravelOverlap.playerGridY + 1)
      cBlockedOverlapLoc.bounds = true ∧
    cTravelOverlap.locations = [cTownLoc, cBlockedOverlapLoc] ∧
    cTravelOverlap.isMoving = false ∧ cTravelOverlap.isInDialogue = false ∧
    ¬((travelMovePlayer cTravelOverlap 0 1).1.playerGridX = cTravelOverlap.playerGridX ∧
      (travelMovePlayer cTravelOverlap 0 1).1.playerGridY = cTravelOverlap.playerGridY) := by
  decide

/-- C9 (amended): a move whose target tile's FIRST matching location in
declared order is blocked-type never changes the player's position; once the
location id is in the session's shownBlockedDialogue set the attempt is
silent (no events, set unchanged); and over any step sequence each location
id's blocked warning dialogue fires at most once, never again after the id
has been recorded. -/
theorem blocked_location_first_match (s : TravelState) (dx dy : Int)
    (loc : LocationMarker)
    (hloc : getLocationAtPosition s (s.playerGridX + dx) (s.playerGridY + dy) = some loc)
    (hb : loc.type = LocationType.blocked) :
    ((travelMovePlayer s dx dy).1.playerGridX = s.playerGridX ∧
     (travelMovePlayer s dx dy).1.playerGridY = s.playerGridY) ∧
    (s.shownBlockedDialogue.contains loc.id = true →
      (travelMovePlayer s dx dy).2.2 = [] ∧
      (travelMovePlayer s dx dy).1.shownBlockedDialogue = s.shownBlockedDialogue) ∧
    (∀ acts : List TravelAction, ∀ lid : String,
      (travelRunEvents s acts).count (TravelEvent.blockedDialogue lid) ≤ 1 ∧
      (s.shownBlockedDialogue.contains lid = true →
        (travelRunEvents s acts).count (TravelEvent.blockedDialogue lid) = 0)) := by
  have hmain : ((travelMovePlayer s dx dy).1.playerGridX = s.playerGridX ∧
      (travelMovePlayer s dx dy).1.playerGridY = s.playerGridY) ∧
      (s.shownBlockedDialogue.contains loc.id = true →
        (travelMovePlayer s dx dy).2.2 = [] ∧
        (travelMovePlayer s dx dy).1.shownBlockedDialogue = s.shownBlockedDialogue) := by
    unfold travelMovePlayer
    split
    · exact ⟨⟨rfl, rfl⟩, fun _ => ⟨rfl, rfl⟩⟩
    · dsimp only
      split
      · exact ⟨⟨rfl, rfl⟩, fun _ => ⟨rfl, rfl⟩⟩
      · split
        · next loc2 heq =>
          have heq2 : getLocationAtPosition s (s.playerGridX + dx) (s.playerGridY + dy) =
              some loc2 := heq
          rw [hloc] at heq2
          obtain rfl := Option.some.inj heq2
          split
          · split
            · next hns =>
              rw [Bool.not_eq_true'] at hns
              refine ⟨⟨rfl, rfl⟩, fun hcont => ?_⟩
              rw [hns] at hcont
              exact Bool.noConfusion hcont
            · exact ⟨⟨rfl, rfl⟩, fun _ => ⟨rfl, rfl⟩⟩
          · next hbneq =>
            exfalso
            apply hbneq
            rw [hb]
            rfl
        · next heq =>
          have heq2 : getLocationAtPosition s (s.playerGridX + dx) (s.playerGridY + dy) =
              none := heq
          rw [hloc] at heq2
          exact Option.noConfusion heq2
  exact ⟨hmain.1, hmain.2, fun acts lid => ⟨(travelRun_blockedDialogue acts s lid).2,
    fun h => (travelRun_blockedDialogue acts s lid).1 h⟩⟩

/-- Witness for the amended C9 at a concrete blocked location. -/
theorem blocked_location_first_match_witness :
    getLocationAtPosition cTravel (cTravel.playerGridX + 0) (cTravel.playerGridY + 1) =
      some cBlockedLoc ∧
    cBlockedLoc.type = LocationType.blocked ∧
    (((travelMovePlayer cTravel 0 1).1.playerGridX = cTravel.playerGridX ∧
      (travelMovePlayer cTravel 0 1).1.playerGridY = cTravel.playerGridY) ∧
     (cTravel.shownBlockedDialogue.contains cBlockedLoc.id = true →
       (travelMovePlayer cTravel 0 1).2.2 = [] ∧
       (travelMovePlayer cTravel 0 1).1.shownBlockedDialogue =
         cTravel.shownBlockedDialogue) ∧
     (∀ acts : List TravelAction, ∀ lid : String,
       (travelRunEvents cTravel acts).count (TravelEvent.blockedDialogue lid) ≤ 1 ∧
       (cTravel.shownBlockedDialogue.contains lid = true →
         (travelRunEvents cTravel acts).count (TravelEvent.blockedDialogue lid) = 0))) :=
  ⟨by decide, rfl, blocked_location_first_match cTravel 0 1 cBlockedLoc (by decide) rfl⟩

theorem menuNavAll_invariant (inputs : List MenuInput) (m : ChoiceMenu)
    (h0 : 0 ≤ m.selectedIndex) (h1 : m.selectedIndex < (m.options.length : Int)) :
    0 ≤ (menuNavAll m inputs).selectedIndex ∧
    (menuNavAll m inputs).selectedIndex < ((menuNavAll m inputs).options.length : Int) ∧
    (menuNavAll m inputs).options = m.options := by
  induction inputs generalizing m with
  | nil => exact ⟨h0, h1, rfl⟩
  | cons i rest ih =>
    dsimp only [menuNavAll]
    cases i with
    | up =>
      have hlen : (0 : Int) < m.options.length := by omega
      refine ih _ ?_ ?_
      · exact le_max_left _ _
      · show max 0 (m.selectedIndex - 1) < (m.options.length : Int)
        exact max_lt hlen (by omega)
    | down =>
      refine ih _ ?_ ?_
      · exact le_min (by omega) (by omega)
      · show min ((m.options.length : Int) - 1) (m.selectedIndex + 1) <
          (m.options.length : Int)
        have := min_le_left ((m.options.length : Int) - 1) (m.selectedIndex + 1)
        omega

/-- C6: opening a choice menu resets the highlighted index to 0; each up or
down input moves it by one with clamping to the valid range and no
wraparound; after any input sequence the index stays in range and confirm
returns exactly the label at the highlighted index. -/
theorem choice_menu_reset_clamp_confirm (options : List String)
    (inputs : List MenuInput) (hne : options ≠ []) :
    (showChoiceMenu options).selectedIndex = 0 ∧
    (∀ m : ChoiceMenu, 0 ≤ m.selectedIndex → m.selectedIndex < (m.options.length : Int) →
      ((menuNav m MenuInput.up).selectedIndex =
         if m.selectedIndex = 0 then 0 else m.selectedIndex - 1) ∧
      ((menuNav m MenuInput.down).selectedIndex =
         if m.selectedIndex = (m.options.length : Int) - 1 then m.selectedIndex
         else m.selectedIndex + 1)) ∧
    0 ≤ (menuNavAll (showChoiceMenu options) inputs).selectedIndex ∧
    (menuNavAll (showChoiceMenu options) inputs).selectedIndex < (options.length : Int) ∧
    ∃ hlt : (menuNavAll (showChoiceMenu options) inputs).selectedIndex.toNat <
        options.length,
      selectChoiceMenuOption (menuNavAll (showChoiceMenu options) inputs) =
        some (options.get
          ⟨(menuNavAll (showChoiceMenu options) inputs).selectedIndex.toNat, hlt⟩) := by
  have hpos : (0 : Int) < options.length := by
    have := List.length_pos.2 hne
    omega
  obtain ⟨hi0, hi1, hopt⟩ := menuNavAll_invariant inputs (showChoiceMenu options)
    le_rfl hpos
  rw [hopt] at hi1
  have hi2 : (menuNavAll (showChoiceMenu options) inputs).selectedIndex <
      (options.length : Int) := hi1
  have hlt : (menuNavAll (showChoiceMenu options) inputs).selectedIndex.toNat <
      options.length := by omega
  refine ⟨rfl, ?_, hi0, hi2, hlt, ?_⟩
  · intro m h0 h1
    constructor
    · dsimp only [menuNav]
      split
      · next h => rw [h]; exact max_eq_left (by omega)
      · next h => exact max_eq_right (by omega)
    · dsimp only [menuNav]
      split
      · next h => rw [h]; exact min_eq_left (by omega)
      · next h => exact min_eq_right (by omega)
  · show (menuNavAll (showChoiceMenu options) inputs).options.get? _ = _
    rw [hopt]
    exact List.get?_eq_get hlt

theorem setTile_get?_ne (t : List (List Nat)) (y x v j : Nat) (h : y ≠ j) :
    (setTile t y x v).get? j = t.get? j :=
  List.get?_set_ne _ _ h

theorem setTile_length (t : List (List Nat)) (y x v : Nat) :
    (setTile t y x v).length = t.length :=
  List.length_set _ _ _

theorem setTile_get?_eq (t : List (List Nat)) (y x v : Nat) (row : List Nat)
    (hy : y < t.length) (hrow : t.get? y = some row) :
    (setTile t y x v).get? y = some (row.set x v) := by
  unfold setTile
  have hd : t.getD y [] = row := by
    rw [List.getD_eq_get?, hrow]
    rfl
  rw [hd]
  exact List.get?_set_eq_of_lt _ hy

theorem scene2_gate_terrain (t : List (List Nat)) (row : List Nat)
    (hlen : t.length = 32) (hrow : t.get? 2 = some row) (hrl : 14 ≤ row.length) :
    terrainAt (scene2ApplyGateUnlocks t) 13 2 = some 0 := by
  have h1 : (setTile t 1 13 0).get? 2 = some row := by
    rw [setTile_get?_ne _ _ _ _ _ (by omega)]
    exact hrow
  have hlen1 : (setTile t 1 13 0).length = 32 := by
    rw [setTile_length]
    exact hlen
  have h2 : (setTile (setTile t 1 13 0) 1 14 0).get? 2 = some row := by
    rw [setTile_get?_ne _ _ _ _ _ (by omega)]
    exact h1
  have hlen2 : (setTile (setTile t 1 13 0) 1 14 0).length = 32 := by
    rw [setTile_length]
    exact hlen1
  have h3 : (setTile (setTile (setTile t 1 13 0) 1 14 0) 2 13 0).get? 2 =
      some (row.set 13 0) := by
    exact setTile_get?_eq _ _ _ _ _ (by omega) h2
  have hlen3 : (setTile (setTile (setTile t 1 13 0) 1 14 0) 2 13 0).length = 32 := by
    rw [setTile_length]
    exact hlen2
  have h4 : (scene2ApplyGateUnlocks t).get? 2 = some ((row.set 13 0).set 14 0) := by
    unfold scene2ApplyGateUnlocks
    exact setTile_get?_eq _ _ _ _ _ (by omega) h3
  unfold terrainAt
  rw [if_neg (by omega)]
  show ((scene2ApplyGateUnlocks t).get? 2).bind (fun r => r.get? 13) = some 0
  rw [h4]
  show ((row.set 13 0).set 14 0).get? 13 = some 0
  rw [List.get?_set_ne _ _ (by omega)]
  exact List.get?_set_eq_of_lt _ (by omega)

/-- C7: in IshetarScene2 with the gate tiles unlocked by create, a player
standing at (13, 1) with no modal session active who moves down once commits
position (13, 2); the north-gate exit trigger fires and starts TravelScene
with the scene's game state bundle forwarded unchanged. -/
theorem north_gate_exit_scenario (hero : String) (g : String → Bool) (pt : Nat)
    (dm : Bool) (t : List (List Nat)) (row : List Nat) (hlen : t.length = 32)
    (hrow : t.get? 2 = some row) (hrl : 14 ≤ row.length) :
    ((movePlayer ({ scene2Create hero g pt dm t 32 32 with
        playerGridX := 13, playerGridY := 1 }) 0 1).1.playerGridX = 13 ∧
     (movePlayer ({ scene2Create hero g pt dm t 32 32 with
        playerGridX := 13, playerGridY := 1 }) 0 1).1.playerGridY = 2) ∧
    ∃ p : ScenePayload,
      (movePlayer ({ scene2Create hero g pt dm t 32 32 with
        playerGridX := 13, playerGridY := 1 }) 0 1).2.2 = some p ∧
      p.targetScene = "TravelScene" ∧ p.gameFlags = g ∧ p.playTime = pt ∧
      p.heroId = hero := by
  have hterr := scene2_gate_terrain t row hlen hrow hrl
  have hpass : isPassable (scene2Create hero g pt dm t 32 32) 13 2 = true := by
    apply (isPassable_eq_true_iff _ 13 2).2
    refine ⟨by norm_num, ?_, by norm_num, ?_, ?_, ?_⟩
    · show (13 : Int) < 32
      norm_num
    · show (2 : Int) < 32
      norm_num
    · show terrainAt (scene2ApplyGateUnlocks t) 13 2 ≠ some 2
      rw [hterr]
      simp
    · show ∀ npc ∈ scene2NpcPositions, ¬(npc.1 = 13 ∧ npc.2 = 2)
      decide
  unfold movePlayer
  split
  · next hg => simp [scene2Create] at hg
  · dsimp only
    split
    · next hp =>
      exfalso
      rw [Bool.not_eq_true'] at hp
      have hp2 : (true : Bool) = false := by
        rw [← hpass]
        exact hp
      exact Bool.noConfusion hp2
    · exact ⟨⟨rfl, rfl⟩, ⟨goToTravelMap _, rfl, rfl, rfl, rfl, rfl⟩⟩

/-- C8: choosing an occupied slot routes to overwrite confirmation whose
choice menu is exactly Yes / No; answering No returns to idle without any
SaveManager.save call, leaving the persisted store and the tracked play time
unchanged; a save call is emitted only for Yes. -/
theorem save_overwrite_confirmation (previews : List SlotPreview) (p : SlotPreview)
    (n : Nat) (choice : String) (s : Scene2State) (sessionSeconds : Nat)
    (success : Bool) (store : Nat → Option SaveData)
    (hparse : parseSlotChoice choice = some n) (hcancel : choice ≠ "Cancel")
    (hfind : previews.find? (fun q => q.slot == n) = some p)
    (hocc : p.isEmpty = false) :
    saveSlotSelectionCallback previews choice = SaveFlowStep.overwriteConfirm n ∧
    (showOverwriteConfirmation s).menuOptions = ["Yes", "No"] ∧
    overwriteMenuSelect s n sessionSeconds success ("No") =
      ({ s with isInDialogue := false }, []) ∧
    (overwriteMenuSelect s n sessionSeconds success ("No")).1.playTime = s.playTime ∧
    applySaveCalls store (overwriteMenuSelect s n sessionSeconds success ("No")).2 =
      store ∧
    (∀ c : String,
      (overwriteMenuSelect s n sessionSeconds success c).2 ≠ [] → c = "Yes") ∧
    (overwriteMenuSelect s n sessionSeconds success ("Yes")).2.length = 1 := by
  refine ⟨?_, rfl, ?_, ?_, ?_, ?_, ?_⟩
  · unfold saveSlotSelectionCallback
    rw [if_neg hcancel, hparse]
    dsimp only
    rw [hfind]
    dsimp only
    rw [if_pos hocc]
  · unfold overwriteMenuSelect
    rw [if_neg (by decide)]
  · unfold overwriteMenuSelect
    rw [if_neg (by decide)]
  · unfold overwriteMenuSelect
    rw [if_neg (by decide)]
    rfl
  · intro c hne
    by_cases hc : c = "Yes"
    · exact hc
    · exfalso
      unfold overwriteMenuSelect at hne
      rw [if_neg hc] at hne
      exact hne rfl
  · rfl

/-- Witness for C8 at a concrete occupied slot 1 label. -/
theorem save_overwrite_confirmation_witness :
    parseSlotChoice cSlotChoice = some 1 ∧ cSlotChoice ≠ "Cancel" ∧
    cPreviews.find? (fun q => q.slot == 1) = some cSlot1 ∧ cSlot1.isEmpty = false ∧
    saveSlotSelectionCallback cPreviews cSlotChoice = SaveFlowStep.overwriteConfirm 1 ∧
    (overwriteMenuSelect cScene2 1 10 true ("No")).2 = [] ∧
    applySaveCalls (fun _ => none) (overwriteMenuSelect cScene2 1 10 true ("No")).2 =
      (fun _ => none) := by
  have h := save_overwrite_confirmation cPreviews cSlot1 1 cSlotChoice cScene2 10 true
    (fun _ => none) (by decide) (by decide) (by decide) rfl
  exact ⟨by decide, by decide, by decide, rfl, h.1, by rw [h.2.2.1], h.2.2.2.2.1⟩

/-- C10: on a non-empty slot the delete confirmation opens with selection
index 1, whose on-screen text is Yes (No sits at index 0), so confirming
without any prior left or right input emits the SaveManager.delete call. -/
theorem delete_confirm_defaults_yes (s : NarratorState) (preview : SlotPreview)
    (hget : s.saveSlotPreviews.get? s.saveSlotSelection = some preview)
    (hocc : preview.isEmpty = false) :
    (showDeleteConfirmation s).deleteConfirmSelection = 1 ∧
    (showDeleteConfirmation s).deleteConfirmTexts.get? 0 = some ("No") ∧
    (showDeleteConfirmation s).deleteConfirmTexts.get? 1 = some ("Yes") ∧
    (showDeleteConfirmation s).currentPhase = NarratorPhase.deleteConfirm ∧
    (deleteConfirmStep (showDeleteConfirmation s) NavKey.enterKey).2 =
      [preview.slot] := by
  unfold showDeleteConfirmation
  rw [hget]
  dsimp only
  rw [if_neg (by rw [hocc]; exact Bool.noConfusion)]
  exact ⟨rfl, rfl, rfl, rfl, rfl⟩

/-- Witness for C10 at the concrete occupied slot 1. -/
theorem delete_confirm_defaults_yes_witness :
    cNarrator.saveSlotPreviews.get? cNarrator.saveSlotSelection = some cSlot1 ∧
    cSlot1.isEmpty = false ∧
    (showDeleteConfirmation cNarrator).deleteConfirmSelection = 1 ∧
    (showDeleteConfirmation cNarrator).deleteConfirmTexts.get? 0 = some ("No") ∧
    (showDeleteConfirmation cNarrator).deleteConfirmTexts.get? 1 = some ("Yes") ∧
    (showDeleteConfirmation cNarrator).currentPhase = NarratorPhase.deleteConfirm ∧
    (deleteConfirmStep (showDeleteConfirmation cNarrator) NavKey.enterKey).2 =
      [cSlot1.slot] := by
  have h := delete_confirm_defaults_yes cNarrator cSlot1 (by decide) rfl
  exact ⟨by decide, rfl, h.1, h.2.1, h.2.2.1, h.2.2.2.1, h.2.2.2.2⟩

/-- Witness for C2 at a concrete accepted move. -/
theorem trigger_eval_once_after_commit_witness :
    (movePlayer cScene2 0 (-1)).2.1.count MoveEvent.triggersChecked =
      (movePlayer cScene2 0 (-1)).2.1.countP eventIsCommit ∧
    (movePlayer cScene2 0 (-1)).2.1.count MoveEvent.triggersChecked ≤ 1 ∧
    triggerAfterCommitAndClear cScene2.isMoving (movePlayer cScene2 0 (-1)).2.1 :=
  (trigger_eval_once_after_commit cScene2 cTravel 0 (-1) 0 1).1

/-- Witness for C3: on the concrete state the move right is rejected because
an NPC occupies the target tile, and the position indeed does not change. -/
theorem move_reject_characterization_witness :
    cScene2.isMoving = false ∧ cScene2.isInDialogue = false ∧
    ((1 : Int) = 1 ∧ (0 : Int) = 0) ∧
    (movePlayer cScene2 1 0).1.playerGridX = cScene2.playerGridX ∧
    (movePlayer cScene2 1 0).1.playerGridY = cScene2.playerGridY :=
  ⟨rfl, rfl, ⟨rfl, rfl⟩,
   ((move_reject_characterization cScene2 1 0 rfl rfl (Or.inl ⟨rfl, rfl⟩)).1).mpr
     (by decide)⟩

/-- Witness for C4: moving down on the concrete state turns the sprite to
front. -/
theorem facing_update_and_modal_noop_witness :
    cScene2.isMoving = false ∧ cScene2.isInDialogue = false ∧
    (movePlayer cScene2 0 1).1.playerFacing = Facing.front :=
  ⟨rfl, rfl, ((facing_update_and_modal_noop cScene2 0 1).2 rfl rfl).2.2.1 rfl rfl⟩

/-- Witness for C6 on the concrete Yes / No menu with a down, down, up input
sequence. -/
theorem choice_menu_reset_clamp_confirm_witness :
    (["Yes", "No"] : List String) ≠ [] ∧
    (showChoiceMenu ["Yes", "No"]).selectedIndex = 0 ∧
    ∃ hlt : (menuNavAll (showChoiceMenu ["Yes", "No"])
        [MenuInput.down, MenuInput.down, MenuInput.up]).selectedIndex.toNat <
        (["Yes", "No"] : List String).length,
      selectChoiceMenuOption (menuNavAll (showChoiceMenu ["Yes", "No"])
        [MenuInput.down, MenuInput.down, MenuInput.up]) =
        some ((["Yes", "No"] : List String).get
          ⟨(menuNavAll (showChoiceMenu ["Yes", "No"])
            [MenuInput.down, MenuInput.down, MenuInput.up]).selectedIndex.toNat,
           hlt⟩) := by
  have h := choice_menu_reset_clamp_confirm ["Yes", "No"]
    [MenuInput.down, MenuInput.down, MenuInput.up] (by decide)
  exact ⟨by decide, h.1, h.2.2.2.2⟩

/-- Witness for C7 on an all-walkable 32x32 stand-in map. -/
theorem north_gate_exit_scenario_witness :
    cMapTerrain.length = 32 ∧
    cMapTerrain.get? 2 = some (List.replicate 32 0) ∧
    14 ≤ (List.replicate 32 (0 : Nat)).length ∧
    (((movePlayer ({ scene2Create ("vicas") (fun _ => false) 0 false cMapTerrain 32 32
          with playerGridX := 13, playerGridY := 1 }) 0 1).1.playerGridX = 13 ∧
      (movePlayer ({ scene2Create ("vicas") (fun _ => false) 0 false cMapTerrain 32 32
          with playerGridX := 13, playerGridY := 1 }) 0 1).1.playerGridY = 2) ∧
     ∃ p : ScenePayload,
       (movePlayer ({ scene2Create ("vicas") (fun _ => false) 0 false cMapTerrain 32 32
           with playerGridX := 13, playerGridY := 1 }) 0 1).2.2 = some p ∧
       p.targetScene = "TravelScene" ∧ p.gameFlags = (fun _ => false) ∧
       p.playTime = 0 ∧ p.heroId = "vicas") := by
  refine ⟨by decide, by decide, by decide, ?_⟩
  exact north_gate_exit_scenario ("vicas") (fun _ => false) 0 false cMapTerrain
    (List.replicate 32 0) (by decide) (by decide) (by decide)

end Ishetar
